import Mathlib

/-!
Shallow embedding of `src/balance.py` from the repository hongji34/lotto.

The script drives a headless browser: `get_balance(page)` navigates to a
fixed dashboard URL (navigation timeout disabled), waits up to 10 seconds
for the `#totalAmt` element to become visible, reads the inner text of the
`#totalAmt` and `#divCrntEntrsAmt` elements, strips non-digit characters,
parses the remaining digits as an integer (empty digit string means 0),
and returns the two amounts. `run(playwright)` launches the browser,
creates a context and page, calls `login` then `get_balance`, prints the
two amounts with thousands separators, and guarantees context/browser
cleanup in a `finally` block; any exception is printed and re-raised.

The page and the browser library are modelled by explicit data: element
texts, the instant (in ms) at which `#totalAmt` becomes visible, and the
instant at which navigation reaches `domcontentloaded`. Effects are
recorded as an event trace; exceptions are an `Except`; an operation that
never returns (navigation with the timeout disabled on a page that never
loads) is `Option.none`.
-/

namespace Lotto

/-- Whitespace characters removed by Python `str.strip()` (ASCII part;
the claims only need that none of them is a digit). -/
def pyIsSpace (c : Char) : Bool :=
  c = ' ' || c = '\t' || c = '\n' || c = '\x0b' || c = '\x0c' || c = '\r'

/-- Embedding of Python `str.strip()`: drop leading and trailing
whitespace characters. -/
def stripText (s : String) : String :=
  String.mk (((s.data.dropWhile pyIsSpace).reverse.dropWhile pyIsSpace).reverse)

/-- Embedding of `re.sub(r'[^0-9]', '', s)`: keep exactly the ASCII digit
characters of `s`, in order. -/
def digitsOnly (s : String) : String :=
  String.mk (s.data.filter Char.isDigit)

/-- Value of a digit character list read most-significant-digit first,
as Python `int` parses a nonempty digit string. -/
def digitsVal (l : List Char) : Nat :=
  l.foldl (fun a c => 10 * a + (c.toNat - 48)) 0

/-- The parsing pipeline of `get_balance` applied to one element text:
`text.strip()`, then `re.sub(r'[^0-9]', '', ...)`, then
`int(digit_str) if digit_str else 0` (balance.py lines 37, 42, 46-50). -/
def parseAmount (s : String) : Nat :=
  let d := digitsOnly (stripText s)
  if d.data.isEmpty then 0 else digitsVal d.data

/-- Result record of `get_balance`: the dict
`{'deposit_balance': int, 'available_amount': int}` (balance.py 52-55).
Python's parsed values are sums of decimal digits, hence non-negative;
`Nat` carries that. -/
structure BalanceInfo where
  deposit_balance : Nat
  available_amount : Nat
deriving DecidableEq, Repr

/-- Extraction-and-parsing step of `get_balance` (balance.py 36-55):
given the raw inner texts of `#totalAmt` and `#divCrntEntrsAmt`,
produce the result record. -/
def extractParse (depositText availableText : String) : BalanceInfo :=
  { deposit_balance := parseAmount depositText
    available_amount := parseAmount availableText }

/-- Exceptions the script can observe: Playwright's `TimeoutError` and
any other error, each carrying the message `str(e)`. -/
inductive Exc where
  | timeoutError (msg : String)
  | otherError (msg : String)
deriving DecidableEq, Repr

/-- Message of an exception, as Python `str(e)`. -/
def excMessage : Exc → String
  | Exc.timeoutError m => m
  | Exc.otherError m => m

/-- Whether an exception is a timeout-kind failure. -/
def isTimeoutErr : Exc → Bool
  | Exc.timeoutError _ => true
  | Exc.otherError _ => false

/-- Observable effects of the script, recorded as a trace. -/
inductive Ev where
  | launch
  | newContext
  | newPage
  | gotoUrl (url : String)
  | waitForSelector (sel : String)
  | readInnerText (sel : String)
  | printLine (s : String)
  | closeContext
  | closeBrowser
deriving DecidableEq, Repr

/-- Recognizer for the context-close event. -/
def isCloseContext : Ev → Bool
  | Ev.closeContext => true
  | _ => false

/-- Recognizer for the browser-close event. -/
def isCloseBrowser : Ev → Bool
  | Ev.closeBrowser => true
  | _ => false

/-- Recognizer for element-visibility waits. -/
def isWaitEv : Ev → Bool
  | Ev.waitForSelector _ => true
  | _ => false

/-- Recognizer for inner-text reads (the extraction step). -/
def isReadEv : Ev → Bool
  | Ev.readInnerText _ => true
  | _ => false

/-- Recognizer for printed lines. -/
def isPrintEv : Ev → Bool
  | Ev.printLine _ => true
  | _ => false

/-- Model of one page as `get_balance` can observe it. `navLoadMs` is the
instant (ms) at which navigation reaches `domcontentloaded` (`none` if the
page never loads); `totalAmtVisibleAt` is the instant at which `#totalAmt`
becomes visible (`none` if never); the two text fields are the elements'
inner texts; `divCrntEntrsAmtVisible` records whether `#divCrntEntrsAmt`
is visible (the code never consults it). -/
structure PageModel where
  navLoadMs : Option Nat
  totalAmtVisibleAt : Option Nat
  totalAmtText : String
  divCrntEntrsAmtText : String
  divCrntEntrsAmtVisible : Bool
deriving DecidableEq, Repr

/-- Outcome of Playwright `page.goto`. -/
inductive NavOutcome where
  | completed (atMs : Nat)
  | timedOut (afterMs : Nat)
  | blocked
deriving DecidableEq, Repr

/-- Modelled Playwright `page.goto` timeout semantics: a timeout of `0`
disables the timeout entirely, so navigation either completes when the
page loads or blocks forever; a positive timeout raises `TimeoutError`
once exceeded. -/
def gotoModel (timeoutMs : Nat) (loadMs : Option Nat) : NavOutcome :=
  match loadMs with
  | some t => if timeoutMs ≠ 0 ∧ timeoutMs < t then NavOutcome.timedOut timeoutMs
              else NavOutcome.completed t
  | none => if timeoutMs ≠ 0 then NavOutcome.timedOut timeoutMs else NavOutcome.blocked

/-- Outcome of Playwright `page.wait_for_selector(..., state="visible")`. -/
inductive WaitOutcome where
  | visible
  | timedOut
deriving DecidableEq, Repr

/-- Modelled Playwright visibility wait: succeeds if the element becomes
visible within the timeout, otherwise raises `TimeoutError`. -/
def waitModel (timeoutMs : Nat) (visibleAt : Option Nat) : WaitOutcome :=
  match visibleAt with
  | some t => if t ≤ timeoutMs then WaitOutcome.visible else WaitOutcome.timedOut
  | none => WaitOutcome.timedOut

/-- The fixed dashboard URL (balance.py line 26). -/
def dashboardUrl : String := "https://www.dhlottery.co.kr/mypage/home"

/-- Navigation timeout passed to `page.goto` (balance.py line 26:
`timeout=0`). -/
def navigationTimeoutMs : Nat := 0

/-- Visibility-wait timeout passed to `page.wait_for_selector`
(balance.py line 32: `timeout=10000`). -/
def selectorTimeoutMs : Nat := 10000

/-- Timeout exception raised when navigation exceeds a positive timeout
(unreachable here: the script disables the navigation timeout). -/
def navTimeoutExc : Exc := Exc.timeoutError "Timeout exceeded during navigation"

/-- Timeout exception raised when `#totalAmt` does not become visible
within the 10-second bound (balance.py line 32). -/
def selectorTimeoutExc : Exc :=
  Exc.timeoutError "Timeout 10000ms exceeded waiting for selector #totalAmt"

/-- Embedding of `get_balance(page)` (balance.py 11-55): navigate with the
timeout disabled, wait up to 10 s for `#totalAmt` to be visible, read both
inner texts, parse, and return the record. Returns the event trace and the
result; `none` when the call never returns (navigation blocks forever). -/
def get_balance (p : PageModel) : Option (List Ev × Except Exc BalanceInfo) :=
  match gotoModel navigationTimeoutMs p.navLoadMs with
  | NavOutcome.blocked => none
  | NavOutcome.timedOut _ =>
      some ([Ev.gotoUrl dashboardUrl],
        Except.error navTimeoutExc)
  | NavOutcome.completed _ =>
      match waitModel selectorTimeoutMs p.totalAmtVisibleAt with
      | WaitOutcome.timedOut =>
          some ([Ev.gotoUrl dashboardUrl, Ev.waitForSelector "#totalAmt"],
            Except.error selectorTimeoutExc)
      | WaitOutcome.visible =>
          some ([Ev.gotoUrl dashboardUrl, Ev.waitForSelector "#totalAmt",
                 Ev.readInnerText "#totalAmt", Ev.readInnerText "#divCrntEntrsAmt"],
            Except.ok (extractParse p.totalAmtText p.divCrntEntrsAmtText))

/-- Least-significant-first decimal digits, with explicit fuel so the
recursion is structural (the fuel never runs out when it starts at `n`). -/
def digitsRevAux : Nat → Nat → List Nat
  | 0, _ => []
  | _ + 1, 0 => []
  | fuel + 1, n + 1 => ((n + 1) % 10) :: digitsRevAux fuel ((n + 1) / 10)

/-- Least-significant-first decimal digits of a natural number
(empty for 0). -/
def digitsRev (n : Nat) : List Nat := digitsRevAux n n

/-- Value of a least-significant-first decimal digit list. -/
def valRev (l : List Nat) : Nat := l.foldr (fun d r => d + 10 * r) 0

/-- Digit character for a digit value. -/
def charOfDigit (d : Nat) : Char := Char.ofNat (48 + d)

/-- Decimal representation of a natural number, most significant digit
first, as Python `str(n)`. -/
def natChars (n : Nat) : List Char :=
  if n = 0 then ['0'] else ((digitsRev n).map charOfDigit).reverse

/-- Insert a comma after every three characters of a reversed
(least-significant-first) digit character list. -/
def insertCommasRev : List Char → List Char
  | a :: b :: c :: d :: rest => a :: b :: c :: ',' :: insertCommasRev (d :: rest)
  | l => l

/-- Embedding of the Python format spec `f"{n:,}"`: decimal digits with a
comma as thousands separator every three digits from the right. -/
def formatComma (n : Nat) : String :=
  String.mk (insertCommasRev (natChars n).reverse).reverse

/-- The first line printed on success (balance.py line 74). -/
def depositLine (info : BalanceInfo) : String :=
  "💰 예치금 잔액: " ++ formatComma info.deposit_balance ++ "원"

/-- The second line printed on success (balance.py line 75). -/
def availableLine (info : BalanceInfo) : String :=
  "🛒 구매가능: " ++ formatComma info.available_amount ++ "원"

/-- The line printed by the `except` clause (balance.py line 80). -/
def errorLine (e : Exc) : String := "❌ Error: " ++ excMessage e

/-- Embedding of `run(playwright)` (balance.py 58-85): launch browser,
create context and page, then `try` login and `get_balance`, print the two
formatted lines and return the record; `except` prints the error and
re-raises; `finally` closes the context and the browser. `loginRes` is the
outcome of the external `login(page)` collaborator. Returns `none` when
the body never returns (navigation blocked forever). -/
def run (loginRes : Except Exc Unit) (p : PageModel) :
    Option (List Ev × Except Exc BalanceInfo) :=
  let pre := [Ev.launch, Ev.newContext, Ev.newPage]
  let cleanup := [Ev.closeContext, Ev.closeBrowser]
  match loginRes with
  | Except.error e =>
      some (pre ++ [Ev.printLine (errorLine e)] ++ cleanup, Except.error e)
  | Except.ok _ =>
      match get_balance p with
      | none => none
      | some (tr, Except.error e) =>
          some (pre ++ tr ++ [Ev.printLine (errorLine e)] ++ cleanup,
            Except.error e)
      | some (tr, Except.ok info) =>
          some (pre ++ tr ++
                [Ev.printLine (depositLine info), Ev.printLine (availableLine info)] ++
                cleanup,
            Except.ok info)

/-- Specification-side parse: the integer formed by concatenating only
the digit characters of the text, in their original order. -/
def specParsedValue (s : String) : Nat :=
  digitsVal (s.data.filter Char.isDigit)

/-! ## Helper lemmas about the parsing pipeline -/

theorem pyIsSpace_not_digit (c : Char) (h : pyIsSpace c = true) :
    Char.isDigit c = false := by
  simp only [pyIsSpace, Bool.or_eq_true, decide_eq_true_eq] at h
  rcases h with ((((h | h) | h) | h) | h) | h <;> subst h <;> decide

theorem filter_digit_dropWhile_space (l : List Char) :
    (l.dropWhile pyIsSpace).filter Char.isDigit = l.filter Char.isDigit := by
  induction l with
  | nil => rfl
  | cons c t ih =>
    by_cases hc : pyIsSpace c
    · rw [List.dropWhile_cons_of_pos hc, ih, List.filter_cons_of_neg]
      simp [pyIsSpace_not_digit c hc]
    · rw [List.dropWhile_cons_of_neg hc]

theorem filter_digits_stripText (s : String) :
    (stripText s).data.filter Char.isDigit = s.data.filter Char.isDigit := by
  show (((s.data.dropWhile pyIsSpace).reverse.dropWhile pyIsSpace).reverse).filter
      Char.isDigit = _
  rw [List.filter_reverse, filter_digit_dropWhile_space, List.filter_reverse,
    List.reverse_reverse, filter_digit_dropWhile_space]

theorem parseAmount_eq_spec (s : String) : parseAmount s = specParsedValue s := by
  show (let d := digitsOnly (stripText s);
    if d.data.isEmpty then 0 else digitsVal d.data) = specParsedValue s
  simp only [digitsOnly, specParsedValue, filter_digits_stripText]
  by_cases h : (s.data.filter Char.isDigit).isEmpty
  · rw [if_pos h, List.isEmpty_iff.mp h]; rfl
  · rw [if_neg h]

theorem parseAmount_zero_of_no_digit (s : String)
    (h : ∀ c ∈ s.data, ¬ c.isDigit) : parseAmount s = 0 := by
  rw [parseAmount_eq_spec, specParsedValue, List.filter_eq_nil_iff.mpr h]; rfl

/-! ## Helper lemmas about the thousands-separator formatting -/

theorem digitsRevAux_lt : ∀ (f n : Nat), ∀ d ∈ digitsRevAux f n, d < 10 := by
  intro f
  induction f with
  | zero => intro n d hd; simp [digitsRevAux] at hd
  | succ f ih =>
    intro n d hd
    cases n with
    | zero => simp [digitsRevAux] at hd
    | succ n =>
      rw [digitsRevAux] at hd
      rcases List.mem_cons.mp hd with h | h
      · subst h; exact Nat.mod_lt _ (by norm_num)
      · exact ih _ d h

theorem valRev_digitsRevAux : ∀ (f n : Nat), n ≤ f → valRev (digitsRevAux f n) = n := by
  intro f
  induction f with
  | zero => intro n hn; interval_cases n; rfl
  | succ f ih =>
    intro n hn
    cases n with
    | zero => rfl
    | succ n =>
      rw [digitsRevAux]
      show (n + 1) % 10 + 10 * valRev (digitsRevAux f ((n + 1) / 10)) = n + 1
      rw [ih ((n + 1) / 10) (by
        have h1 : (n + 1) / 10 < n + 1 := Nat.div_lt_self (Nat.succ_pos n) (by norm_num)
        omega)]
      exact Nat.mod_add_div (n + 1) 10

theorem valRev_digitsRev (n : Nat) : valRev (digitsRev n) = n :=
  valRev_digitsRevAux n n (Nat.le_refl n)

theorem digitsRev_lt (n : Nat) : ∀ d ∈ digitsRev n, d < 10 :=
  digitsRevAux_lt n n

theorem charOfDigit_toNat (d : Nat) (h : d < 10) : (charOfDigit d).toNat - 48 = d := by
  interval_cases d <;> decide

theorem charOfDigit_isDigit (d : Nat) (h : d < 10) : (charOfDigit d).isDigit = true := by
  interval_cases d <;> decide

theorem foldl_rev_valRev (l : List Nat) :
    ∀ a, l.reverse.foldl (fun a d => 10 * a + d) a = a * 10 ^ l.length + valRev l := by
  induction l with
  | nil => intro a; simp [valRev]
  | cons d t ih =>
    intro a
    rw [List.reverse_cons, List.foldl_append, ih]
    show 10 * (a * 10 ^ t.length + valRev t) + d = a * 10 ^ (d :: t).length + valRev (d :: t)
    show 10 * (a * 10 ^ t.length + valRev t) + d = a * 10 ^ (t.length + 1) + (d + 10 * valRev t)
    ring

theorem foldl_map_charOfDigit (l : List Nat) :
    ∀ a, (∀ d ∈ l, d < 10) →
      (l.map charOfDigit).foldl (fun a c => 10 * a + (c.toNat - 48)) a =
        l.foldl (fun a d => 10 * a + d) a := by
  induction l with
  | nil => intro a _; rfl
  | cons d t ih =>
    intro a hl
    rw [List.map_cons, List.foldl_cons, List.foldl_cons,
      charOfDigit_toNat d (hl d (List.mem_cons_self d t))]
    exact ih _ (fun x hx => hl x (List.mem_cons_of_mem _ hx))

theorem digitsVal_natChars (n : Nat) : digitsVal (natChars n) = n := by
  unfold natChars
  by_cases h : n = 0
  · subst h; decide
  · rw [if_neg h]
    show (((digitsRev n).map charOfDigit).reverse).foldl
        (fun a c => 10 * a + (c.toNat - 48)) 0 = n
    rw [← List.map_reverse,
      foldl_map_charOfDigit _ 0 (fun d hd => digitsRev_lt n d (List.mem_reverse.mp hd)),
      foldl_rev_valRev, valRev_digitsRev]
    simp

theorem natChars_all_digit (n : Nat) : ∀ c ∈ natChars n, Char.isDigit c = true := by
  unfold natChars
  by_cases h : n = 0
  · subst h; decide
  · rw [if_neg h]
    intro c hc
    rcases List.mem_map.mp (List.mem_reverse.mp hc) with ⟨d, hd, rfl⟩
    exact charOfDigit_isDigit d (digitsRev_lt n d hd)

theorem filter_insertCommasRev :
    ∀ l : List Char, (insertCommasRev l).filter Char.isDigit = l.filter Char.isDigit
  | [] => rfl
  | [_] => rfl
  | [_, _] => rfl
  | [_, _, _] => rfl
  | a :: b :: c :: d :: rest => by
    rw [insertCommasRev]
    simp only [List.filter_cons, filter_insertCommasRev (d :: rest),
      show Char.isDigit ',' = false from by decide, Bool.false_eq_true, if_false]

theorem filter_digits_formatComma (n : Nat) :
    (formatComma n).data.filter Char.isDigit = natChars n := by
  show ((insertCommasRev (natChars n).reverse).reverse).filter Char.isDigit = natChars n
  rw [List.filter_reverse, filter_insertCommasRev, List.filter_reverse,
    List.reverse_reverse, List.filter_eq_self.mpr]
  intro a ha
  exact natChars_all_digit n a ha

theorem parseAmount_formatComma (n : Nat) : parseAmount (formatComma n) = n := by
  rw [parseAmount_eq_spec, specParsedValue, filter_digits_formatComma, digitsVal_natChars]

theorem parseAmount_depositLine (info : BalanceInfo) :
    parseAmount (depositLine info) = info.deposit_balance := by
  rw [parseAmount_eq_spec, specParsedValue, depositLine]
  rw [show ("💰 예치금 잔액: " ++ formatComma info.deposit_balance ++ "원").data =
    "💰 예치금 잔액: ".data ++ (formatComma info.deposit_balance).data ++ "원".data from rfl]
  rw [List.filter_append, List.filter_append, filter_digits_formatComma]
  rw [show "💰 예치금 잔액: ".data.filter Char.isDigit = [] from by decide]
  rw [show "원".data.filter Char.isDigit = [] from by decide]
  rw [List.nil_append, List.append_nil, digitsVal_natChars]

theorem get_balance_eq_none (p : PageModel) (h : p.navLoadMs = none) :
    get_balance p = none := by
  unfold get_balance; rw [h]; exact rfl

theorem get_balance_eq_of_nav (p : PageModel) (l : Nat) (h : p.navLoadMs = some l) :
    get_balance p =
      match waitModel selectorTimeoutMs p.totalAmtVisibleAt with
      | WaitOutcome.timedOut =>
          some ([Ev.gotoUrl dashboardUrl, Ev.waitForSelector "#totalAmt"],
            Except.error selectorTimeoutExc)
      | WaitOutcome.visible =>
          some ([Ev.gotoUrl dashboardUrl, Ev.waitForSelector "#totalAmt",
                 Ev.readInnerText "#totalAmt", Ev.readInnerText "#divCrntEntrsAmt"],
            Except.ok (extractParse p.totalAmtText p.divCrntEntrsAmtText)) := by
  unfold get_balance; rw [h]; exact rfl

theorem get_balance_shape (p : PageModel) :
    (p.navLoadMs = none ∧ get_balance p = none) ∨
    get_balance p = some ([Ev.gotoUrl dashboardUrl, Ev.waitForSelector "#totalAmt"],
      Except.error selectorTimeoutExc) ∨
    get_balance p = some ([Ev.gotoUrl dashboardUrl, Ev.waitForSelector "#totalAmt",
      Ev.readInnerText "#totalAmt", Ev.readInnerText "#divCrntEntrsAmt"],
      Except.ok (extractParse p.totalAmtText p.divCrntEntrsAmtText)) := by
  rcases hn : p.navLoadMs with _ | l
  · exact Or.inl ⟨rfl, get_balance_eq_none p hn⟩
  · rw [get_balance_eq_of_nav p l hn]
    rcases waitModel selectorTimeoutMs p.totalAmtVisibleAt
    · exact Or.inr (Or.inr rfl)
    · exact Or.inr (Or.inl rfl)

theorem run_err_eq (e : Exc) (p : PageModel) :
    run (Except.error e) p =
      some ([Ev.launch, Ev.newContext, Ev.newPage, Ev.printLine (errorLine e),
             Ev.closeContext, Ev.closeBrowser], Except.error e) := rfl

theorem run_ok_eq (p : PageModel) :
    run (Except.ok ()) p =
      match get_balance p with
      | none => none
      | some (tr, Except.error e) =>
          some ([Ev.launch, Ev.newContext, Ev.newPage] ++ tr ++
            [Ev.printLine (errorLine e), Ev.closeContext, Ev.closeBrowser],
            Except.error e)
      | some (tr, Except.ok info) =>
          some ([Ev.launch, Ev.newContext, Ev.newPage] ++ tr ++
            [Ev.printLine (depositLine info), Ev.printLine (availableLine info),
             Ev.closeContext, Ev.closeBrowser],
            Except.ok info) := by
  show (match get_balance p with
    | none => none
    | some (tr, Except.error e) =>
        some ([Ev.launch, Ev.newContext, Ev.newPage] ++ tr ++
          [Ev.printLine (errorLine e)] ++ [Ev.closeContext, Ev.closeBrowser],
          Except.error e)
    | some (tr, Except.ok info) =>
        some ([Ev.launch, Ev.newContext, Ev.newPage] ++ tr ++
          [Ev.printLine (depositLine info), Ev.printLine (availableLine info)] ++
          [Ev.closeContext, Ev.closeBrowser],
          Except.ok info)) = _
  rcases get_balance p with _ | ⟨tr, res⟩
  · rfl
  · rcases res with e | info <;> simp

theorem run_ok_of_gb_none (p : PageModel) (hgb : get_balance p = none) :
    run (Except.ok ()) p = none := by
  rw [run_ok_eq, hgb]

theorem run_ok_of_gb_err (p : PageModel) (tr : List Ev) (e : Exc)
    (hgb : get_balance p = some (tr, Except.error e)) :
    run (Except.ok ()) p =
      some ([Ev.launch, Ev.newContext, Ev.newPage] ++ tr ++
        [Ev.printLine (errorLine e), Ev.closeContext, Ev.closeBrowser],
        Except.error e) := by
  rw [run_ok_eq, hgb]

theorem run_ok_of_gb_ok (p : PageModel) (tr : List Ev) (info : BalanceInfo)
    (hgb : get_balance p = some (tr, Except.ok info)) :
    run (Except.ok ()) p =
      some ([Ev.launch, Ev.newContext, Ev.newPage] ++ tr ++
        [Ev.printLine (depositLine info), Ev.printLine (availableLine info),
         Ev.closeContext, Ev.closeBrowser],
        Except.ok info) := by
  rw [run_ok_eq, hgb]

theorem parseAmount_availableLine (info : BalanceInfo) :
    parseAmount (availableLine info) = info.available_amount := by
  rw [parseAmount_eq_spec, specParsedValue, availableLine]
  rw [show ("🛒 구매가능: " ++ formatComma info.available_amount ++ "원").data =
    "🛒 구매가능: ".data ++ (formatComma info.available_amount).data ++ "원".data from rfl]
  rw [List.filter_append, List.filter_append, filter_digits_formatComma]
  rw [show "🛒 구매가능: ".data.filter Char.isDigit = [] from by decide]
  rw [show "원".data.filter Char.isDigit = [] from by decide]
  rw [List.nil_append, List.append_nil, digitsVal_natChars]

/-! ## Claim theorems -/

/-- C1: for every element text containing digit characters possibly
intermixed with non-digit characters, the parsing step of `get_balance`
returns the integer formed by concatenating exactly the digit characters
in their original order; and on a page whose deposit element text is
"35,000" and whose available-amount element text is "20,000원",
`get_balance` returns deposit_balance 35000 and available_amount 20000. -/
theorem C1_parse_digit_concatenation :
    (∀ s : String, s.data.any Char.isDigit → parseAmount s = specParsedValue s) ∧
    get_balance (PageModel.mk (some 0) (some 0) "35,000" "20,000원" true) =
      some ([Ev.gotoUrl dashboardUrl, Ev.waitForSelector "#totalAmt",
             Ev.readInnerText "#totalAmt", Ev.readInnerText "#divCrntEntrsAmt"],
        Except.ok (BalanceInfo.mk 35000 20000)) := by
  refine ⟨fun s _ => parseAmount_eq_spec s, ?_⟩
  rfl

/-- C1 witness: the general part of C1 applied to the concrete text
"35,000". -/
theorem C1_witness :
    ("35,000".data.any Char.isDigit) = true ∧
    parseAmount "35,000" = specParsedValue "35,000" :=
  ⟨by decide, C1_parse_digit_concatenation.1 "35,000" (by decide)⟩

/-- C2: every element text that is empty, whitespace-only, or contains no
digit characters parses to 0 without error, and an available-amount
element containing only "원" yields available_amount 0. -/
theorem C2_no_digit_parses_to_zero :
    (∀ s : String, (∀ c ∈ s.data, ¬ c.isDigit) → parseAmount s = 0) ∧
    get_balance (PageModel.mk (some 0) (some 0) "35,000" "원" true) =
      some ([Ev.gotoUrl dashboardUrl, Ev.waitForSelector "#totalAmt",
             Ev.readInnerText "#totalAmt", Ev.readInnerText "#divCrntEntrsAmt"],
        Except.ok (BalanceInfo.mk 35000 0)) := by
  refine ⟨parseAmount_zero_of_no_digit, ?_⟩
  rfl

/-- C2 witness: the general part of C2 applied to the whitespace-only
text " ". -/
theorem C2_witness :
    (∀ c ∈ (" " : String).data, ¬ Char.isDigit c) ∧ parseAmount " " = 0 :=
  ⟨by decide, C2_no_digit_parses_to_zero.1 " " (by decide)⟩

/-- C6: navigation to the dashboard URL is performed with the navigation
timeout disabled (`timeout=0`), so it never yields a timeout outcome: it
completes whenever the page loads and blocks forever when it never loads,
in which case `get_balance` never returns. -/
theorem C6_navigation_never_times_out :
    (∀ (load : Option Nat) (a : Nat),
      gotoModel navigationTimeoutMs load ≠ NavOutcome.timedOut a) ∧
    (∀ t, gotoModel navigationTimeoutMs (some t) = NavOutcome.completed t) ∧
    gotoModel navigationTimeoutMs none = NavOutcome.blocked ∧
    (∀ p : PageModel, p.navLoadMs = none → get_balance p = none) := by
  refine ⟨?_, ?_, rfl, get_balance_eq_none⟩
  · intro load a h
    rcases load with _ | t <;> simp [gotoModel, navigationTimeoutMs] at h
  · intro t
    simp [gotoModel, navigationTimeoutMs]

/-- C6 witness: C6 applied to a page that loads at 7 ms and to a page
that never finishes loading. -/
theorem C6_witness :
    gotoModel navigationTimeoutMs (some 7) = NavOutcome.completed 7 ∧
    get_balance (PageModel.mk none (some 0) "35,000" "20,000원" true) = none :=
  ⟨C6_navigation_never_times_out.2.1 7,
   C6_navigation_never_times_out.2.2.2 _ rfl⟩

/-- C9: the extraction-and-parsing step is deterministic: equal element
texts yield equal results. -/
theorem C9_extraction_deterministic (d a d' a' : String)
    (h1 : d = d') (h2 : a = a') : extractParse d a = extractParse d' a' := by
  rw [h1, h2]

/-- C9 witness: C9 applied to the concrete texts "35,000" and
"20,000원". -/
theorem C9_witness :
    ("35,000" : String) = "35,000" ∧
    extractParse "35,000" "20,000원" = extractParse "35,000" "20,000원" :=
  ⟨rfl, C9_extraction_deterministic "35,000" "20,000원" "35,000" "20,000원" rfl rfl⟩

/-- C3: on every exit path of `run` — success, login failure, or
extraction failure — the browsing context and the browser are each
released exactly once, as the final two events before the call returns or
re-raises. -/
theorem C3_resources_released_once (loginRes : Except Exc Unit) (p : PageModel)
    (tr : List Ev) (res : Except Exc BalanceInfo)
    (h : run loginRes p = some (tr, res)) :
    ∃ t0, tr = t0 ++ [Ev.closeContext, Ev.closeBrowser] ∧
      t0.countP isCloseContext = 0 ∧ t0.countP isCloseBrowser = 0 ∧
      tr.countP isCloseContext = 1 ∧ tr.countP isCloseBrowser = 1 := by
  rcases loginRes with e | u
  · rw [run_err_eq] at h
    simp only [Option.some.injEq, Prod.mk.injEq] at h
    obtain ⟨htr, _⟩ := h
    subst htr
    exact ⟨[Ev.launch, Ev.newContext, Ev.newPage, Ev.printLine (errorLine e)], rfl,
      by simp [List.countP_cons, isCloseContext],
      by simp [List.countP_cons, isCloseBrowser],
      by simp [List.countP_cons, isCloseContext],
      by simp [List.countP_cons, isCloseBrowser]⟩
  · cases u
    rcases get_balance_shape p with ⟨_, hgb⟩ | hgb | hgb
    · rw [run_ok_of_gb_none p hgb] at h
      exact absurd h (by simp)
    · rw [run_ok_of_gb_err p _ _ hgb] at h
      simp only [Option.some.injEq, Prod.mk.injEq] at h
      obtain ⟨htr, _⟩ := h
      subst htr
      exact ⟨[Ev.launch, Ev.newContext, Ev.newPage, Ev.gotoUrl dashboardUrl,
        Ev.waitForSelector "#totalAmt", Ev.printLine (errorLine selectorTimeoutExc)], rfl,
        by simp [List.countP_cons, isCloseContext],
        by simp [List.countP_cons, isCloseBrowser],
        by simp [List.countP_cons, isCloseContext],
        by simp [List.countP_cons, isCloseBrowser]⟩
    · rw [run_ok_of_gb_ok p _ _ hgb] at h
      simp only [Option.some.injEq, Prod.mk.injEq] at h
      obtain ⟨htr, _⟩ := h
      subst htr
      exact ⟨[Ev.launch, Ev.newContext, Ev.newPage, Ev.gotoUrl dashboardUrl,
        Ev.waitForSelector "#totalAmt", Ev.readInnerText "#totalAmt",
        Ev.readInnerText "#divCrntEntrsAmt",
        Ev.printLine (depositLine (extractParse p.totalAmtText p.divCrntEntrsAmtText)),
        Ev.printLine (availableLine (extractParse p.totalAmtText p.divCrntEntrsAmtText))],
        rfl,
        by simp [List.countP_cons, isCloseContext],
        by simp [List.countP_cons, isCloseBrowser],
        by simp [List.countP_cons, isCloseContext],
        by simp [List.countP_cons, isCloseBrowser]⟩

/-- C3 witness: C3 applied to a successful run on a concrete page. -/
theorem C3_witness :
    ∃ t0, ([Ev.launch, Ev.newContext, Ev.newPage, Ev.gotoUrl dashboardUrl,
        Ev.waitForSelector "#totalAmt", Ev.readInnerText "#totalAmt",
        Ev.readInnerText "#divCrntEntrsAmt",
        Ev.printLine (depositLine (BalanceInfo.mk 35000 20000)),
        Ev.printLine (availableLine (BalanceInfo.mk 35000 20000)),
        Ev.closeContext, Ev.closeBrowser] : List Ev) =
        t0 ++ [Ev.closeContext, Ev.closeBrowser] ∧
      t0.countP isCloseContext = 0 ∧ t0.countP isCloseBrowser = 0 ∧
      ([Ev.launch, Ev.newContext, Ev.newPage, Ev.gotoUrl dashboardUrl,
        Ev.waitForSelector "#totalAmt", Ev.readInnerText "#totalAmt",
        Ev.readInnerText "#divCrntEntrsAmt",
        Ev.printLine (depositLine (BalanceInfo.mk 35000 20000)),
        Ev.printLine (availableLine (BalanceInfo.mk 35000 20000)),
        Ev.closeContext, Ev.closeBrowser] : List Ev).countP isCloseContext = 1 ∧
      ([Ev.launch, Ev.newContext, Ev.newPage, Ev.gotoUrl dashboardUrl,
        Ev.waitForSelector "#totalAmt", Ev.readInnerText "#totalAmt",
        Ev.readInnerText "#divCrntEntrsAmt",
        Ev.printLine (depositLine (BalanceInfo.mk 35000 20000)),
        Ev.printLine (availableLine (BalanceInfo.mk 35000 20000)),
        Ev.closeContext, Ev.closeBrowser] : List Ev).countP isCloseBrowser = 1 :=
  C3_resources_released_once (Except.ok ())
    (PageModel.mk (some 0) (some 0) "35,000" "20,000원" true) _ _ rfl

/-- C4: whenever `run` ends in an exception, it has printed the
human-readable error line for that exception and re-raises exactly the
original exception: its error result is the login failure or the
extraction failure, unchanged, and conversely any such failure is
propagated unchanged. -/
theorem C4_error_printed_and_reraised (loginRes : Except Exc Unit) (p : PageModel)
    (tr : List Ev) (res : Except Exc BalanceInfo)
    (h : run loginRes p = some (tr, res)) :
    (∀ e, res = Except.error e →
      Ev.printLine (errorLine e) ∈ tr ∧
      (loginRes = Except.error e ∨
        ∃ tr', get_balance p = some (tr', Except.error e))) ∧
    (∀ e, loginRes = Except.error e → res = Except.error e) ∧
    (∀ e tr', loginRes = Except.ok () →
      get_balance p = some (tr', Except.error e) → res = Except.error e) := by
  rcases loginRes with e0 | u
  · rw [run_err_eq] at h
    simp only [Option.some.injEq, Prod.mk.injEq] at h
    obtain ⟨htr, hres⟩ := h
    subst htr; subst hres
    refine ⟨?_, ?_, ?_⟩
    · intro e he
      rw [Except.error.injEq] at he
      subst he
      exact ⟨by simp, Or.inl rfl⟩
    · intro e he
      rw [Except.error.injEq] at he
      subst he
      rfl
    · intro e tr' hok
      exact absurd hok (by simp)
  · cases u
    rcases get_balance_shape p with ⟨_, hgb⟩ | hgb | hgb
    · rw [run_ok_of_gb_none p hgb] at h
      exact absurd h (by simp)
    · rw [run_ok_of_gb_err p _ _ hgb] at h
      simp only [Option.some.injEq, Prod.mk.injEq] at h
      obtain ⟨htr, hres⟩ := h
      subst htr; subst hres
      refine ⟨?_, ?_, ?_⟩
      · intro e he
        rw [Except.error.injEq] at he
        subst he
        exact ⟨by simp, Or.inr ⟨_, hgb⟩⟩
      · intro e he
        exact absurd he (by simp)
      · intro e tr' _ hgb'
        rw [hgb] at hgb'
        simp only [Option.some.injEq, Prod.mk.injEq, Except.error.injEq] at hgb'
        rw [hgb'.2]
    · rw [run_ok_of_gb_ok p _ _ hgb] at h
      simp only [Option.some.injEq, Prod.mk.injEq] at h
      obtain ⟨htr, hres⟩ := h
      subst htr; subst hres
      refine ⟨?_, ?_, ?_⟩
      · intro e he
        exact absurd he (by simp)
      · intro e he
        exact absurd he (by simp)
      · intro e tr' _ hgb'
        rw [hgb] at hgb'
        simp at hgb'

/-- C4 witness: C4 applied to a run whose login fails. -/
theorem C4_witness :
    (∀ e, (Except.error (Exc.otherError "login failed") : Except Exc BalanceInfo) =
        Except.error e →
      Ev.printLine (errorLine e) ∈
        ([Ev.launch, Ev.newContext, Ev.newPage,
          Ev.printLine (errorLine (Exc.otherError "login failed")),
          Ev.closeContext, Ev.closeBrowser] : List Ev) ∧
      ((Except.error (Exc.otherError "login failed") : Except Exc Unit) = Except.error e ∨
        ∃ tr', get_balance (PageModel.mk (some 0) (some 0) "35,000" "20,000원" true) =
          some (tr', Except.error e))) ∧
    (∀ e, (Except.error (Exc.otherError "login failed") : Except Exc Unit) =
        Except.error e →
      (Except.error (Exc.otherError "login failed") : Except Exc BalanceInfo) =
        Except.error e) ∧
    (∀ e tr', (Except.error (Exc.otherError "login failed") : Except Exc Unit) =
        Except.ok () →
      get_balance (PageModel.mk (some 0) (some 0) "35,000" "20,000원" true) =
        some (tr', Except.error e) →
      (Except.error (Exc.otherError "login failed") : Except Exc BalanceInfo) =
        Except.error e) :=
  C4_error_printed_and_reraised (Except.error (Exc.otherError "login failed"))
    (PageModel.mk (some 0) (some 0) "35,000" "20,000원" true) _ _ rfl

/-- C5: when the page has loaded but `#totalAmt` never becomes visible
within the 10-second bound, `get_balance` fails with a timeout-kind error
and its trace contains no inner-text read, so no extraction or parsing
happens and no partial result is produced. -/
theorem C5_visibility_timeout (p : PageModel) (l : Nat)
    (hnav : p.navLoadMs = some l)
    (hvis : p.totalAmtVisibleAt = none ∨
      ∃ t, p.totalAmtVisibleAt = some t ∧ selectorTimeoutMs < t) :
    ∃ tr e, get_balance p = some (tr, Except.error e) ∧ isTimeoutErr e = true ∧
      tr.countP isReadEv = 0 := by
  have hw : waitModel selectorTimeoutMs p.totalAmtVisibleAt = WaitOutcome.timedOut := by
    rcases hvis with hn | ⟨t, ht, hlt⟩
    · rw [hn]; rfl
    · rw [ht]
      show (if t ≤ selectorTimeoutMs then WaitOutcome.visible else WaitOutcome.timedOut) =
        WaitOutcome.timedOut
      rw [if_neg (Nat.not_le.mpr hlt)]
  rw [get_balance_eq_of_nav p l hnav, hw]
  exact ⟨[Ev.gotoUrl dashboardUrl, Ev.waitForSelector "#totalAmt"], selectorTimeoutExc,
    rfl, rfl, by simp [List.countP_cons, isReadEv]⟩

/-- C5 witness: C5 applied to a loaded page whose `#totalAmt` element
never becomes visible. -/
theorem C5_witness :
    ∃ tr e, get_balance (PageModel.mk (some 0) none "35,000" "20,000원" true) =
        some (tr, Except.error e) ∧ isTimeoutErr e = true ∧
      tr.countP isReadEv = 0 :=
  C5_visibility_timeout (PageModel.mk (some 0) none "35,000" "20,000원" true) 0
    rfl (Or.inl rfl)

/-- C7: every result `get_balance` returns is a `BalanceInfo` whose two
fields are non-negative integers, and a field is 0 whenever its page text
contains no digit (empty or unparsable), rather than the operation
failing. -/
theorem C7_result_invariant (p : PageModel) (tr : List Ev) (info : BalanceInfo)
    (h : get_balance p = some (tr, Except.ok info)) :
    0 ≤ info.deposit_balance ∧ 0 ≤ info.available_amount ∧
    ((∀ c ∈ p.totalAmtText.data, ¬ c.isDigit) → info.deposit_balance = 0) ∧
    ((∀ c ∈ p.divCrntEntrsAmtText.data, ¬ c.isDigit) → info.available_amount = 0) := by
  rcases get_balance_shape p with ⟨_, hgb⟩ | hgb | hgb
  · rw [hgb] at h
    exact absurd h (by simp)
  · rw [hgb] at h
    simp at h
  · rw [hgb] at h
    simp only [Option.some.injEq, Prod.mk.injEq, Except.ok.injEq] at h
    obtain ⟨_, hinfo⟩ := h
    subst hinfo
    exact ⟨Nat.zero_le _, Nat.zero_le _,
      fun hnd => parseAmount_zero_of_no_digit _ hnd,
      fun hnd => parseAmount_zero_of_no_digit _ hnd⟩

/-- C7 witness: C7 applied to a page whose available-amount text has no
digits. -/
theorem C7_witness :
    0 ≤ (BalanceInfo.mk 35000 0).deposit_balance ∧
    0 ≤ (BalanceInfo.mk 35000 0).available_amount ∧
    ((∀ c ∈ (PageModel.mk (some 0) (some 0) "35,000" "원" true).totalAmtText.data,
      ¬ c.isDigit) → (BalanceInfo.mk 35000 0).deposit_balance = 0) ∧
    ((∀ c ∈ (PageModel.mk (some 0) (some 0) "35,000" "원" true).divCrntEntrsAmtText.data,
      ¬ c.isDigit) → (BalanceInfo.mk 35000 0).available_amount = 0) :=
  C7_result_invariant (PageModel.mk (some 0) (some 0) "35,000" "원" true)
    [Ev.gotoUrl dashboardUrl, Ev.waitForSelector "#totalAmt",
     Ev.readInnerText "#totalAmt", Ev.readInnerText "#divCrntEntrsAmt"]
    (BalanceInfo.mk 35000 0) rfl

/-- C8: on a successful run, exactly two lines are printed — one per
amount, formatted with thousands separators and the currency unit (the
digit content of each printed line parses back to the amount) — and `run`
returns the same record `get_balance` produced, unchanged. -/
theorem C8_success_prints_and_returns (p : PageModel) (trg : List Ev)
    (info : BalanceInfo) (h : get_balance p = some (trg, Except.ok info)) :
    ∃ tr, run (Except.ok ()) p = some (tr, Except.ok info) ∧
      tr.filter isPrintEv =
        [Ev.printLine (depositLine info), Ev.printLine (availableLine info)] ∧
      tr.countP isPrintEv = 2 ∧
      parseAmount (depositLine info) = info.deposit_balance ∧
      parseAmount (availableLine info) = info.available_amount := by
  rcases get_balance_shape p with ⟨_, hgb⟩ | hgb | hgb
  · rw [hgb] at h
    exact absurd h (by simp)
  · rw [hgb] at h
    simp at h
  · rw [hgb] at h
    simp only [Option.some.injEq, Prod.mk.injEq, Except.ok.injEq] at h
    obtain ⟨htr, hinfo⟩ := h
    subst hinfo
    refine ⟨_, run_ok_of_gb_ok p _ _ hgb, ?_, ?_,
      parseAmount_depositLine _, parseAmount_availableLine _⟩
    · simp [List.filter_cons, isPrintEv]
    · simp [List.countP_cons, isPrintEv]

/-- C8 witness: C8 applied to a successful run on a concrete page. -/
theorem C8_witness :
    ∃ tr, run (Except.ok ())
        (PageModel.mk (some 0) (some 0) "35,000" "20,000원" true) =
        some (tr, Except.ok (BalanceInfo.mk 35000 20000)) ∧
      tr.filter isPrintEv =
        [Ev.printLine (depositLine (BalanceInfo.mk 35000 20000)),
         Ev.printLine (availableLine (BalanceInfo.mk 35000 20000))] ∧
      tr.countP isPrintEv = 2 ∧
      parseAmount (depositLine (BalanceInfo.mk 35000 20000)) =
        (BalanceInfo.mk 35000 20000).deposit_balance ∧
      parseAmount (availableLine (BalanceInfo.mk 35000 20000)) =
        (BalanceInfo.mk 35000 20000).available_amount :=
  C8_success_prints_and_returns
    (PageModel.mk (some 0) (some 0) "35,000" "20,000원" true)
    [Ev.gotoUrl dashboardUrl, Ev.waitForSelector "#totalAmt",
     Ev.readInnerText "#totalAmt", Ev.readInnerText "#divCrntEntrsAmt"]
    (BalanceInfo.mk 35000 20000) rfl

/-- C10: `get_balance` waits for visibility only of `#totalAmt`: its
result never depends on the visibility of `#divCrntEntrsAmt`, its trace
holds exactly one visibility wait (for `#totalAmt`), and whenever the page
loads and `#totalAmt` becomes visible within the bound, extraction of both
texts proceeds whatever the second element's visibility. -/
theorem C10_wait_only_deposit_element (p : PageModel) (b : Bool) :
    get_balance (PageModel.mk p.navLoadMs p.totalAmtVisibleAt p.totalAmtText
        p.divCrntEntrsAmtText b) = get_balance p ∧
    (∀ tr res, get_balance p = some (tr, res) →
      tr.filter isWaitEv = [Ev.waitForSelector "#totalAmt"]) ∧
    (∀ l t, p.navLoadMs = some l → p.totalAmtVisibleAt = some t →
      t ≤ selectorTimeoutMs →
      get_balance p = some ([Ev.gotoUrl dashboardUrl, Ev.waitForSelector "#totalAmt",
        Ev.readInnerText "#totalAmt", Ev.readInnerText "#divCrntEntrsAmt"],
        Except.ok (extractParse p.totalAmtText p.divCrntEntrsAmtText))) := by
  refine ⟨?_, ?_, ?_⟩
  · cases p
    rfl
  · intro tr res h
    rcases get_balance_shape p with ⟨_, hgb⟩ | hgb | hgb
    · rw [hgb] at h
      exact absurd h (by simp)
    · rw [hgb] at h
      simp only [Option.some.injEq, Prod.mk.injEq] at h
      obtain ⟨htr, _⟩ := h
      subst htr
      simp [List.filter_cons, isWaitEv]
    · rw [hgb] at h
      simp only [Option.some.injEq, Prod.mk.injEq] at h
      obtain ⟨htr, _⟩ := h
      subst htr
      simp [List.filter_cons, isWaitEv]
  · intro l t hl ht hle
    have hw : waitModel selectorTimeoutMs p.totalAmtVisibleAt = WaitOutcome.visible := by
      rw [ht]
      show (if t ≤ selectorTimeoutMs then WaitOutcome.visible else WaitOutcome.timedOut) =
        WaitOutcome.visible
      rw [if_pos hle]
    rw [get_balance_eq_of_nav p l hl, hw]

/-- C10 witness: C10 applied to a concrete page, toggling the second
element's visibility. -/
theorem C10_witness :
    get_balance (PageModel.mk (some 0) (some 0) "35,000" "20,000원" false) =
      get_balance (PageModel.mk (some 0) (some 0) "35,000" "20,000원" true) ∧
    ([Ev.gotoUrl dashboardUrl, Ev.waitForSelector "#totalAmt",
      Ev.readInnerText "#totalAmt", Ev.readInnerText "#divCrntEntrsAmt"] :
      List Ev).filter isWaitEv = [Ev.waitForSelector "#totalAmt"] ∧
    get_balance (PageModel.mk (some 0) (some 0) "35,000" "20,000원" true) =
      some ([Ev.gotoUrl dashboardUrl, Ev.waitForSelector "#totalAmt",
        Ev.readInnerText "#totalAmt", Ev.readInnerText "#divCrntEntrsAmt"],
        Except.ok (extractParse "35,000" "20,000원")) :=
  ⟨(C10_wait_only_deposit_element
      (PageModel.mk (some 0) (some 0) "35,000" "20,000원" true) false).1,
   (C10_wait_only_deposit_element
      (PageModel.mk (some 0) (some 0) "35,000" "20,000원" true) false).2.1
     [Ev.gotoUrl dashboardUrl, Ev.waitForSelector "#totalAmt",
      Ev.readInnerText "#totalAmt", Ev.readInnerText "#divCrntEntrsAmt"]
     (Except.ok (extractParse "35,000" "20,000원")) rfl,
   (C10_wait_only_deposit_element
      (PageModel.mk (some 0) (some 0) "35,000" "20,000원" true) false).2.2
     0 0 rfl rfl (by decide)⟩

end Lotto
